import Mathlib

/-!
Verification of the Cost-optimization repository's core subsystems:
the idle-classification engine (src/Lambda/Detect_idle_ec2_stale_resource.py)
and the safety-gated cleanup orchestrator (src/Lambda/lambda_cleanup.py).
Provider calls (boto3) are modelled by an explicit read-only environment,
and every mutating call the code issues is recorded in a trace, so that
dry-run and validator properties become statements about that trace.
-/

namespace CostOpt

namespace Detect

/-- Verdict vocabulary of the idle classifier: `instance_info['Status']`. -/
inductive Status where
  | Idle
  | Active
  | NoData
deriving DecidableEq

/-- One CloudWatch CPUUtilization datapoint, holding the requested
`Average` and `Maximum` statistics. -/
structure CpuDp where
  average : ℚ
  maximum : ℚ
deriving DecidableEq

/-- Metric query results for one instance: the CPUUtilization datapoints and
the `Sum` values of the NetworkIn / NetworkOut datapoints over the window. -/
structure InstanceMetrics where
  cpuDatapoints : List CpuDp
  netinSums : List ℚ
  netoutSums : List ℚ
deriving DecidableEq

/-- `CPU_THRESHOLD = 10.0` (percent) from the handler's settings block. -/
def CPU_THRESHOLD : ℚ := 10

/-- `NETWORK_THRESHOLD = 1048576` (1 MB in bytes) from the settings block. -/
def NETWORK_THRESHOLD : ℚ := 1048576

/-- `avg_cpu = sum(dp['Average'] for dp in cpu_datapoints) / len(cpu_datapoints)`. -/
def avg_cpu (m : InstanceMetrics) : ℚ :=
  (m.cpuDatapoints.map CpuDp.average).sum / (m.cpuDatapoints.length : ℚ)

/-- `total_net_in = sum(dp['Sum'] for dp in netin_datapoints)`. -/
def total_net_in (m : InstanceMetrics) : ℚ := m.netinSums.sum

/-- `total_net_out = sum(dp['Sum'] for dp in netout_datapoints)`. -/
def total_net_out (m : InstanceMetrics) : ℚ := m.netoutSums.sum

/-- `total_network = total_net_in + total_net_out`. -/
def total_network (m : InstanceMetrics) : ℚ := total_net_in m + total_net_out m

/-- The classification branch of the handler loop: `NoData` when
`if not cpu_datapoints:` fires, otherwise `Idle` when
`avg_cpu < CPU_THRESHOLD and total_network < NETWORK_THRESHOLD`, else `Active`. -/
def classify (m : InstanceMetrics) : Status :=
  if m.cpuDatapoints.isEmpty then Status.NoData
  else if avg_cpu m < CPU_THRESHOLD ∧ total_network m < NETWORK_THRESHOLD then Status.Idle
  else Status.Active

/-- One running EC2 instance as seen by the scan loop: its id, its tag map
(built from `instance.tags`), and the outcome of the CloudWatch metric
queries for it (`Except.error` models an exception raised inside the
per-instance `try` block before classification). -/
structure Ec2Instance where
  id : String
  tags : List (String × String)
  metrics : Except String InstanceMetrics

/-- Python `dict.get` on the tag map built by
`{tag['Key']: tag['Value'] for tag in (instance.tags or [])}`:
the value of the last pair with the given key, `none` when absent
(a dict comprehension keeps the last duplicate). -/
def tagsGet (tags : List (String × String)) (k : String) : Option String :=
  ((tags.filter (fun p => p.1 == k)).map Prod.snd).getLast?

/-- Observable state accumulated by one scan cycle: the `all_instances`
entries (id paired with status), the `idle_instances` ids, the ids for which
a DynamoDB `table.put_item` call was issued, and the ids for which a
`create_tags` call was issued. -/
structure ScanSummary where
  analyzed : List (String × Status)
  idle : List String
  puts : List String
  tagCalls : List String
deriving DecidableEq

/-- Body of the per-instance `try` block after the metric fetch: the
`NoData` early `continue` appends to `all_instances` only; the `Idle` branch
appends to `idle_instances`, issues `create_tags`, appends to
`all_instances` and issues `put_item`; the `Active` branch appends to
`all_instances` and issues `put_item`. A fetch exception is caught by the
outer handler and contributes nothing. -/
def scanClassify (acc : ScanSummary) (inst : Ec2Instance) : ScanSummary :=
  match inst.metrics with
  | Except.error _ => acc
  | Except.ok m =>
    match classify m with
    | Status.NoData =>
        { acc with analyzed := acc.analyzed ++ [(inst.id, Status.NoData)] }
    | Status.Idle =>
        { acc with analyzed := acc.analyzed ++ [(inst.id, Status.Idle)],
                   idle := acc.idle ++ [inst.id],
                   puts := acc.puts ++ [inst.id],
                   tagCalls := acc.tagCalls ++ [inst.id] }
    | Status.Active =>
        { acc with analyzed := acc.analyzed ++ [(inst.id, Status.Active)],
                   puts := acc.puts ++ [inst.id] }

/-- One iteration of the scan loop: the
`if instance_info['Tags'].get('AutoStop') == 'false': continue` opt-out
check, then `scanClassify`. -/
def scanStep (acc : ScanSummary) (inst : Ec2Instance) : ScanSummary :=
  if tagsGet inst.tags "AutoStop" = some "false" then acc
  else scanClassify acc inst

/-- The whole scan cycle over the listed running instances. -/
def runScan (insts : List Ec2Instance) : ScanSummary :=
  insts.foldl scanStep ⟨[], [], [], []⟩

end Detect

namespace Cleanup

/-- Closed per-target result vocabulary of the cleanup functions.
Constructor names follow the strings the code appends to
`resp["results"]`; `not_available_state` and `error` carry the suffix after
the colon. -/
inductive Tag where
  | already_stopped
  | already_running
  | dry_run_ok
  | stop_requested
  | start_requested
  | terminate_requested
  | deleted
  | released
  | not_available_state (state : String)
  | not_found
  | associated
  | in_use
  | default_group_skip
  | error (msg : String)
deriving DecidableEq

/-- The literal result string the Python code appends for each tag. -/
def Tag.render : Tag → String
  | Tag.already_stopped => "already stopped"
  | Tag.already_running => "already running"
  | Tag.dry_run_ok => "dry_run_ok"
  | Tag.stop_requested => "stop_requested"
  | Tag.start_requested => "start_requested"
  | Tag.terminate_requested => "terminate_requested"
  | Tag.deleted => "deleted"
  | Tag.released => "released"
  | Tag.not_available_state s => "not_available_state:" ++ s
  | Tag.not_found => "not_found"
  | Tag.associated => "associated"
  | Tag.in_use => "in_use"
  | Tag.default_group_skip => "default_group_skip"
  | Tag.error m => "error:" ++ m

/-- Tags by which a state validator refuses a target. -/
def Tag.isRefusal : Tag → Bool
  | Tag.already_stopped => true
  | Tag.already_running => true
  | Tag.not_available_state _ => true
  | Tag.not_found => true
  | Tag.associated => true
  | Tag.in_use => true
  | Tag.default_group_skip => true
  | _ => false

/-- Tags reporting a caught per-target exception. -/
def Tag.isError : Tag → Bool
  | Tag.error _ => true
  | _ => false

/-- Mutating EC2 provider calls the cleanup functions can issue. -/
inductive MutCall where
  | stop (id : String)
  | start (id : String)
  | terminate (id : String)
  | deleteVolume (id : String)
  | releaseAddress (id : String)
  | deleteSecurityGroup (id : String)
deriving DecidableEq

/-- One entry of `describe_addresses(...)["Addresses"]`: only the presence
of `AssociationId` matters to the code. -/
structure Address where
  associationId : Option String
deriving DecidableEq

/-- One entry of `describe_security_groups(...)["SecurityGroups"]`: only
`GroupName` matters to the code. -/
structure SecGroup where
  groupName : String
deriving DecidableEq

/-- Read-only provider environment for one cleanup request. Each describe
field gives the outcome of the corresponding boto3 read call
(`Except.error` models a raised exception, e.g. a malformed or unknown id);
each `...Result` field gives the outcome of the corresponding mutating call,
should it be issued. -/
structure Env where
  instState : String → Except String String
  volState : String → Except String String
  addresses : String → Except String (List Address)
  secGroups : String → Except String (List SecGroup)
  netInterfaces : String → Except String (List Unit)
  stopResult : String → Except String Unit
  startResult : String → Except String Unit
  termResult : String → Except String Unit
  delVolResult : String → Except String Unit
  releaseResult : String → Except String Unit
  delSgResult : String → Except String Unit

/-- Loop body of `stop_instances` for one instance id: describe, refuse when
already stopped, dry-run short-circuit, otherwise issue `ec2.stop_instances`.
Returns the result tag and the mutating calls issued. -/
def stopOne (env : Env) (dry_run : Bool) (i : String) : Tag × List MutCall :=
  match env.instState i with
  | Except.error e => (Tag.error e, [])
  | Except.ok state =>
    if state = "stopped" then (Tag.already_stopped, [])
    else if dry_run then (Tag.dry_run_ok, [])
    else
      match env.stopResult i with
      | Except.ok _ => (Tag.stop_requested, [MutCall.stop i])
      | Except.error e => (Tag.error e, [MutCall.stop i])

/-- Loop body of `start_instances` for one instance id. -/
def startOne (env : Env) (dry_run : Bool) (i : String) : Tag × List MutCall :=
  match env.instState i with
  | Except.error e => (Tag.error e, [])
  | Except.ok state =>
    if state = "running" then (Tag.already_running, [])
    else if dry_run then (Tag.dry_run_ok, [])
    else
      match env.startResult i with
      | Except.ok _ => (Tag.start_requested, [MutCall.start i])
      | Except.error e => (Tag.error e, [MutCall.start i])

/-- Loop body of `terminate_instances` for one instance id: no state
precondition, only the dry-run short-circuit. -/
def termOne (env : Env) (dry_run : Bool) (i : String) : Tag × List MutCall :=
  if dry_run then (Tag.dry_run_ok, [])
  else
    match env.termResult i with
    | Except.ok _ => (Tag.terminate_requested, [MutCall.terminate i])
    | Except.error e => (Tag.error e, [MutCall.terminate i])

/-- Loop body of `delete_volumes` for one volume id: refuse unless the
volume state is `available`. -/
def volOne (env : Env) (dry_run : Bool) (v : String) : Tag × List MutCall :=
  match env.volState v with
  | Except.error e => (Tag.error e, [])
  | Except.ok state =>
    if state ≠ "available" then (Tag.not_available_state state, [])
    else if dry_run then (Tag.dry_run_ok, [])
    else
      match env.delVolResult v with
      | Except.ok _ => (Tag.deleted, [MutCall.deleteVolume v])
      | Except.error e => (Tag.error e, [MutCall.deleteVolume v])

/-- Loop body of `release_eips` for one allocation id: `not_found` when the
describe returns no addresses, `associated` when the first address carries
an `AssociationId`. -/
def eipOne (env : Env) (dry_run : Bool) (a : String) : Tag × List MutCall :=
  match env.addresses a with
  | Except.error e => (Tag.error e, [])
  | Except.ok [] => (Tag.not_found, [])
  | Except.ok (addr :: _) =>
    if addr.associationId.isSome then (Tag.associated, [])
    else if dry_run then (Tag.dry_run_ok, [])
    else
      match env.releaseResult a with
      | Except.ok _ => (Tag.released, [MutCall.releaseAddress a])
      | Except.error e => (Tag.error e, [MutCall.releaseAddress a])

/-- Loop body of `delete_security_groups` for one group id: `not_found` on
an empty describe result, `default_group_skip` when the group is named
`default`, `in_use` when any network interface references the group. -/
def sgOne (env : Env) (dry_run : Bool) (g : String) : Tag × List MutCall :=
  match env.secGroups g with
  | Except.error e => (Tag.error e, [])
  | Except.ok [] => (Tag.not_found, [])
  | Except.ok (grp :: _) =>
    if grp.groupName = "default" then (Tag.default_group_skip, [])
    else
      match env.netInterfaces g with
      | Except.error e => (Tag.error e, [])
      | Except.ok (_ :: _) => (Tag.in_use, [])
      | Except.ok [] =>
        if dry_run then (Tag.dry_run_ok, [])
        else
          match env.delSgResult g with
          | Except.ok _ => (Tag.deleted, [MutCall.deleteSecurityGroup g])
          | Except.error e => (Tag.error e, [MutCall.deleteSecurityGroup g])

/-- The `resp` dictionary each cleanup function builds, plus the trace of
mutating provider calls issued while building it. -/
structure BatchResp where
  action : String
  requested : List String
  results : List (String × Tag)
  calls : List MutCall
deriving DecidableEq

/-- The shared `for`-loop shape of the six cleanup functions: start from the
empty results list and append one entry per target id, accumulating the
mutating calls each iteration issues. -/
def batchRun (name : String) (step : String → Tag × List MutCall)
    (ids : List String) : BatchResp :=
  ids.foldl
    (fun resp i =>
      { resp with results := resp.results ++ [(i, (step i).1)],
                  calls := resp.calls ++ (step i).2 })
    ⟨name, ids, [], []⟩

/-- `stop_instances(instance_ids, dry_run)`. -/
def stop_instances (env : Env) (instance_ids : List String) (dry_run : Bool) : BatchResp :=
  batchRun "stop_instances" (stopOne env dry_run) instance_ids

/-- `start_instances(instance_ids, dry_run)`. -/
def start_instances (env : Env) (instance_ids : List String) (dry_run : Bool) : BatchResp :=
  batchRun "start_instances" (startOne env dry_run) instance_ids

/-- `terminate_instances(instance_ids, dry_run)`. -/
def terminate_instances (env : Env) (instance_ids : List String) (dry_run : Bool) : BatchResp :=
  batchRun "terminate_instances" (termOne env dry_run) instance_ids

/-- `delete_volumes(volume_ids, dry_run)`. -/
def delete_volumes (env : Env) (volume_ids : List String) (dry_run : Bool) : BatchResp :=
  batchRun "delete_volumes" (volOne env dry_run) volume_ids

/-- `release_eips(allocation_ids, dry_run)`. -/
def release_eips (env : Env) (allocation_ids : List String) (dry_run : Bool) : BatchResp :=
  batchRun "release_eips" (eipOne env dry_run) allocation_ids

/-- `delete_security_groups(group_ids, dry_run)`. -/
def delete_security_groups (env : Env) (group_ids : List String) (dry_run : Bool) : BatchResp :=
  batchRun "delete_security_groups" (sgOne env dry_run) group_ids

/-- The cleanup Lambda `event`: `event.get("action")` may be absent, the
id lists default to `[]`, and `event.get("dry_run", True)` defaults to
`true` at the call site that builds this record. -/
structure CleanupEvent where
  action : Option String
  dry_run : Bool
  instance_ids : List String
  volume_ids : List String
  allocation_ids : List String
  group_ids : List String

/-- Python `f"{x}"` on the optional `action` value: `None` renders as the
string `None`. -/
def pyStr : Option String → String
  | none => "None"
  | some s => s

/-- The audit record `log_item` built by the handler (timestamp elided). -/
structure AuditItem where
  action : Option String
  dryRun : Bool
  resultEcho : Option String
deriving DecidableEq

/-- `log_action(item)`: `table.put_item` wrapped in `try/except: pass` —
on success the entry is appended, on failure nothing happens and no
exception escapes. `auditOk` is the outcome of the DynamoDB write. -/
def log_action (auditOk : Bool) (item : AuditItem) : List AuditItem :=
  if auditOk then [item] else []

/-- The `if/elif` dispatch chain of `lambda_handler`: a known action kind
fills `result["details"]`, an unknown one fills
`result["error"] = f"Unknown action: {action}"`. -/
def dispatch (env : Env) (ev : CleanupEvent) : Option BatchResp × Option String :=
  if ev.action = some "stop_instances" then
    (some (stop_instances env ev.instance_ids ev.dry_run), none)
  else if ev.action = some "start_instances" then
    (some (start_instances env ev.instance_ids ev.dry_run), none)
  else if ev.action = some "terminate_instances" then
    (some (terminate_instances env ev.instance_ids ev.dry_run), none)
  else if ev.action = some "delete_volumes" then
    (some (delete_volumes env ev.volume_ids ev.dry_run), none)
  else if ev.action = some "release_eips" then
    (some (release_eips env ev.allocation_ids ev.dry_run), none)
  else if ev.action = some "delete_security_groups" then
    (some (delete_security_groups env ev.group_ids ev.dry_run), none)
  else
    (none, some ("Unknown action: " ++ pyStr ev.action))

/-- What `lambda_handler` returns to its caller: the transport-level
`statusCode` and the serialized `result` object (action echo, dry-run echo,
optional `details`, optional `error`). -/
structure HandlerReturn where
  statusCode : Nat
  action : Option String
  dry_run : Bool
  details : Option BatchResp
  error : Option String
deriving DecidableEq

/-- Mutating calls issued while producing a handler return: those recorded
in its `details`, if any. -/
def handlerCalls (h : HandlerReturn) : List MutCall :=
  match h.details with
  | some b => b.calls
  | none => []

/-- `lambda_handler(event, context)` of the cleanup Lambda: dispatch, then
best-effort audit logging (`auditOk` is the DynamoDB write outcome), then
return `statusCode: 200` with the serialized result. The second component
is the audit-store append performed. -/
def lambda_handler (env : Env) (auditOk : Bool) (ev : CleanupEvent) :
    HandlerReturn × List AuditItem :=
  ({ statusCode := 200, action := ev.action, dry_run := ev.dry_run,
     details := (dispatch env ev).1, error := (dispatch env ev).2 },
   log_action auditOk ⟨ev.action, ev.dry_run, some "serialized result"⟩)

/-- A small concrete provider environment used to instantiate the theorems:
one running and one stopped instance, an in-use volume, a missing and an
associated address, and a default, a missing, an in-use and a deletable
security group. The default group is also referenced by a network
interface, so skipping it really is independent of usage. -/
def envA : Env where
  instState := fun i =>
    if i = "i-run" then Except.ok "running"
    else if i = "i-stop" then Except.ok "stopped"
    else Except.error "InvalidInstanceID.NotFound"
  volState := fun v =>
    if v = "vol-1" then Except.ok "in-use" else Except.ok "available"
  addresses := fun a =>
    if a = "eip-missing" then Except.ok []
    else if a = "eip-assoc" then Except.ok [⟨some "eipassoc-1"⟩]
    else Except.ok [⟨none⟩]
  secGroups := fun g =>
    if g = "sg-default" then Except.ok [⟨"default"⟩]
    else if g = "sg-missing" then Except.ok []
    else Except.ok [⟨"web-sg"⟩]
  netInterfaces := fun g =>
    if g = "sg-used" then Except.ok [()]
    else if g = "sg-default" then Except.ok [()]
    else Except.ok []
  stopResult := fun _ => Except.ok ()
  startResult := fun _ => Except.ok ()
  termResult := fun _ => Except.ok ()
  delVolResult := fun _ => Except.ok ()
  releaseResult := fun _ => Except.ok ()
  delSgResult := fun _ => Except.ok ()

/-- A concrete dry-run stop request over one running instance. -/
def evStopDry : CleanupEvent :=
  ⟨some "stop_instances", true, ["i-run"], [], [], []⟩

/-- A concrete request whose action kind is not one of the six known ones. -/
def evUnknown : CleanupEvent :=
  ⟨some "reboot_instances", true, [], [], [], []⟩

lemma batchRun_go (step : String → Tag × List MutCall) (ids : List String)
    (resp : BatchResp) :
    ids.foldl
      (fun r i =>
        { r with results := r.results ++ [(i, (step i).1)],
                 calls := r.calls ++ (step i).2 }) resp
      = { resp with
            results := resp.results ++ ids.map (fun i => (i, (step i).1)),
            calls := resp.calls ++ (ids.map (fun i => (step i).2)).flatten } := by
  induction ids generalizing resp with
  | nil => simp
  | cons x xs ih => simp [ih, List.append_assoc]

lemma batchRun_results (name : String) (step : String → Tag × List MutCall)
    (ids : List String) :
    (batchRun name step ids).results = ids.map (fun i => (i, (step i).1)) := by
  simp [batchRun, batchRun_go]

lemma batchRun_calls (name : String) (step : String → Tag × List MutCall)
    (ids : List String) :
    (batchRun name step ids).calls = (ids.map (fun i => (step i).2)).flatten := by
  simp [batchRun, batchRun_go]

lemma stopOne_dry_calls (env : Env) (i : String) : (stopOne env true i).2 = [] := by
  unfold stopOne
  cases env.instState i with
  | error e => rfl
  | ok st => by_cases h : st = "stopped" <;> simp [h]

lemma stopOne_dry_vocab (env : Env) (i : String) :
    (stopOne env true i).1 = Tag.dry_run_ok ∨ (stopOne env true i).1.isRefusal = true ∨
      (stopOne env true i).1.isError = true := by
  unfold stopOne
  cases env.instState i with
  | error e => simp [Tag.isError]
  | ok st =>
    by_cases h : st = "stopped" <;> simp [h, Tag.isRefusal]

lemma stopOne_stopped (env : Env) (d : Bool) (i : String)
    (h : env.instState i = Except.ok "stopped") :
    stopOne env d i = (Tag.already_stopped, []) := by
  unfold stopOne
  rw [h]
  simp

lemma stopOne_err (env : Env) (d : Bool) (i : String) (e : String)
    (h : env.instState i = Except.error e) :
    (stopOne env d i).1 = Tag.error e := by
  unfold stopOne
  rw [h]

lemma stopOne_dry_ok_inv (env : Env) (i : String)
    (h : (stopOne env true i).1 = Tag.dry_run_ok) :
    ∃ st, env.instState i = Except.ok st ∧ st ≠ "stopped" := by
  unfold stopOne at h
  cases he : env.instState i with
  | error e => rw [he] at h; simp at h
  | ok st =>
    rw [he] at h
    by_cases hs : st = "stopped"
    · simp [hs] at h
    · exact ⟨st, rfl, hs⟩

lemma startOne_dry_calls (env : Env) (i : String) : (startOne env true i).2 = [] := by
  unfold startOne
  cases env.instState i with
  | error e => rfl
  | ok st => by_cases h : st = "running" <;> simp [h]

lemma startOne_dry_vocab (env : Env) (i : String) :
    (startOne env true i).1 = Tag.dry_run_ok ∨ (startOne env true i).1.isRefusal = true ∨
      (startOne env true i).1.isError = true := by
  unfold startOne
  cases env.instState i with
  | error e => simp [Tag.isError]
  | ok st =>
    by_cases h : st = "running" <;> simp [h, Tag.isRefusal]

lemma startOne_running (env : Env) (d : Bool) (i : String)
    (h : env.instState i = Except.ok "running") :
    startOne env d i = (Tag.already_running, []) := by
  unfold startOne
  rw [h]
  simp

lemma startOne_dry_ok_inv (env : Env) (i : String)
    (h : (startOne env true i).1 = Tag.dry_run_ok) :
    ∃ st, env.instState i = Except.ok st ∧ st ≠ "running" := by
  unfold startOne at h
  cases he : env.instState i with
  | error e => rw [he] at h; simp at h
  | ok st =>
    rw [he] at h
    by_cases hs : st = "running"
    · simp [hs] at h
    · exact ⟨st, rfl, hs⟩

lemma termOne_dry (env : Env) (i : String) :
    termOne env true i = (Tag.dry_run_ok, []) := rfl

lemma volOne_dry_calls (env : Env) (v : String) : (volOne env true v).2 = [] := by
  unfold volOne
  cases env.volState v with
  | error e => rfl
  | ok st => by_cases h : st = "available" <;> simp [h]

lemma volOne_dry_vocab (env : Env) (v : String) :
    (volOne env true v).1 = Tag.dry_run_ok ∨ (volOne env true v).1.isRefusal = true ∨
      (volOne env true v).1.isError = true := by
  unfold volOne
  cases env.volState v with
  | error e => simp [Tag.isError]
  | ok st =>
    by_cases h : st = "available" <;> simp [h, Tag.isRefusal]

lemma volOne_not_available (env : Env) (d : Bool) (v : String) (st : String)
    (h : env.volState v = Except.ok st) (hn : st ≠ "available") :
    volOne env d v = (Tag.not_available_state st, []) := by
  unfold volOne
  rw [h]
  simp [hn]

lemma volOne_dry_ok_inv (env : Env) (v : String)
    (h : (volOne env true v).1 = Tag.dry_run_ok) :
    env.volState v = Except.ok "available" := by
  unfold volOne at h
  cases he : env.volState v with
  | error e => rw [he] at h; simp at h
  | ok st =>
    rw [he] at h
    by_cases hs : st = "available"
    · rw [hs]
    · simp [hs] at h

lemma eipOne_dry_calls (env : Env) (a : String) : (eipOne env true a).2 = [] := by
  unfold eipOne
  cases env.addresses a with
  | error e => rfl
  | ok l =>
    cases l with
    | nil => rfl
    | cons addr rest => by_cases h : addr.associationId.isSome <;> simp [h]

lemma eipOne_dry_vocab (env : Env) (a : String) :
    (eipOne env true a).1 = Tag.dry_run_ok ∨ (eipOne env true a).1.isRefusal = true ∨
      (eipOne env true a).1.isError = true := by
  unfold eipOne
  cases env.addresses a with
  | error e => simp [Tag.isError]
  | ok l =>
    cases l with
    | nil => simp [Tag.isRefusal]
    | cons addr rest => by_cases h : addr.associationId.isSome <;> simp [h, Tag.isRefusal]

lemma eipOne_not_found (env : Env) (d : Bool) (a : String)
    (h : env.addresses a = Except.ok []) :
    eipOne env d a = (Tag.not_found, []) := by
  unfold eipOne
  rw [h]

lemma eipOne_associated (env : Env) (d : Bool) (a : String) (addr : Address)
    (rest : List Address) (h : env.addresses a = Except.ok (addr :: rest))
    (ha : addr.associationId.isSome) :
    eipOne env d a = (Tag.associated, []) := by
  unfold eipOne
  rw [h]
  simp [ha]

lemma eipOne_err (env : Env) (d : Bool) (a : String) (e : String)
    (h : env.addresses a = Except.error e) :
    (eipOne env d a).1 = Tag.error e := by
  unfold eipOne
  rw [h]

lemma eipOne_dry_ok_inv (env : Env) (a : String)
    (h : (eipOne env true a).1 = Tag.dry_run_ok) :
    ∃ addr rest, env.addresses a = Except.ok (addr :: rest) ∧
      addr.associationId = none := by
  unfold eipOne at h
  cases he : env.addresses a with
  | error e => rw [he] at h; simp at h
  | ok l =>
    rw [he] at h
    cases l with
    | nil => simp at h
    | cons addr rest =>
      by_cases ha : addr.associationId.isSome
      · simp [ha] at h
      · exact ⟨addr, rest, rfl, Option.not_isSome_iff_eq_none.mp ha⟩

lemma sgOne_dry_calls (env : Env) (g : String) : (sgOne env true g).2 = [] := by
  unfold sgOne
  cases env.secGroups g with
  | error e => rfl
  | ok l =>
    cases l with
    | nil => rfl
    | cons grp rest =>
      by_cases h : grp.groupName = "default"
      · simp [h]
      · simp only [h, if_false]
        cases env.netInterfaces g with
        | error e => rfl
        | ok enis => cases enis <;> rfl

lemma sgOne_dry_vocab (env : Env) (g : String) :
    (sgOne env true g).1 = Tag.dry_run_ok ∨ (sgOne env true g).1.isRefusal = true ∨
      (sgOne env true g).1.isError = true := by
  unfold sgOne
  cases env.secGroups g with
  | error e => simp [Tag.isError]
  | ok l =>
    cases l with
    | nil => simp [Tag.isRefusal]
    | cons grp rest =>
      by_cases h : grp.groupName = "default"
      · simp [h, Tag.isRefusal]
      · simp only [h, if_false]
        cases env.netInterfaces g with
        | error e => simp [Tag.isError]
        | ok enis => cases enis <;> simp [Tag.isRefusal]

lemma sgOne_not_found (env : Env) (d : Bool) (g : String)
    (h : env.secGroups g = Except.ok []) :
    sgOne env d g = (Tag.not_found, []) := by
  unfold sgOne
  rw [h]

lemma sgOne_default (env : Env) (d : Bool) (g : String) (grp : SecGroup)
    (rest : List SecGroup) (h : env.secGroups g = Except.ok (grp :: rest))
    (hn : grp.groupName = "default") :
    sgOne env d g = (Tag.default_group_skip, []) := by
  unfold sgOne
  rw [h]
  simp [hn]

lemma sgOne_in_use (env : Env) (d : Bool) (g : String) (grp : SecGroup)
    (rest : List SecGroup) (h : env.secGroups g = Except.ok (grp :: rest))
    (hn : grp.groupName ≠ "default") (eni : Unit) (enis : List Unit)
    (he : env.netInterfaces g = Except.ok (eni :: enis)) :
    sgOne env d g = (Tag.in_use, []) := by
  unfold sgOne
  rw [h]
  simp only [hn, if_false]
  rw [he]

lemma sgOne_proceed_inv (env : Env) (d : Bool) (g : String)
    (h : (sgOne env d g).2 ≠ [] ∨ (sgOne env d g).1 = Tag.dry_run_ok ∨
      (sgOne env d g).1 = Tag.deleted) :
    ∃ grp rest, env.secGroups g = Except.ok (grp :: rest) ∧
      grp.groupName ≠ "default" ∧ env.netInterfaces g = Except.ok [] := by
  unfold sgOne at h
  cases hs : env.secGroups g with
  | error e => rw [hs] at h; simp at h
  | ok l =>
    rw [hs] at h
    cases l with
    | nil => simp at h
    | cons grp rest =>
      by_cases hn : grp.groupName = "default"
      · simp [hn] at h
      · simp only [hn, if_false] at h
        cases he : env.netInterfaces g with
        | error e => rw [he] at h; simp at h
        | ok enis =>
          rw [he] at h
          cases enis with
          | cons x xs => simp at h
          | nil => exact ⟨grp, rest, rfl, hn, rfl⟩

lemma map_nil_flatten (ids : List String) (f : String → List MutCall)
    (h : ∀ i, f i = []) : (ids.map f).flatten = [] := by
  induction ids with
  | nil => rfl
  | cons x xs ih => simp [h x, ih]

lemma batch_dry_calls (name : String) (step : String → Tag × List MutCall)
    (ids : List String) (h : ∀ i, (step i).2 = []) :
    (batchRun name step ids).calls = [] := by
  rw [batchRun_calls]
  exact map_nil_flatten ids _ h

lemma batch_dry_vocab (name : String) (step : String → Tag × List MutCall)
    (ids : List String)
    (h : ∀ i, (step i).1 = Tag.dry_run_ok ∨ (step i).1.isRefusal = true ∨
      (step i).1.isError = true) :
    ∀ p ∈ (batchRun name step ids).results,
      p.2.isRefusal = false → p.2.isError = false → p.2 = Tag.dry_run_ok := by
  intro p hp h1 h2
  rw [batchRun_results] at hp
  rcases List.mem_map.mp hp with ⟨i, _, rfl⟩
  rcases h i with h' | h' | h'
  · exact h'
  · simp only [h'] at h1
    cases h1
  · simp only [h'] at h2
    cases h2

lemma dispatch_dry (env : Env) (ev : CleanupEvent) (hdry : ev.dry_run = true)
    (b : BatchResp) (hb : (dispatch env ev).1 = some b) :
    b.calls = [] ∧ ∀ p ∈ b.results,
      p.2.isRefusal = false → p.2.isError = false → p.2 = Tag.dry_run_ok := by
  unfold dispatch at hb
  rw [hdry] at hb
  split_ifs at hb <;> simp only [Option.some.injEq] at hb <;>
    (subst hb
     exact ⟨batch_dry_calls _ _ _ (fun i => by
        first
          | exact stopOne_dry_calls env i
          | exact startOne_dry_calls env i
          | exact (by rfl : (termOne env true i).2 = [])
          | exact volOne_dry_calls env i
          | exact eipOne_dry_calls env i
          | exact sgOne_dry_calls env i),
      batch_dry_vocab _ _ _ (fun i => by
        first
          | exact stopOne_dry_vocab env i
          | exact startOne_dry_vocab env i
          | exact Or.inl (by rfl)
          | exact volOne_dry_vocab env i
          | exact eipOne_dry_vocab env i
          | exact sgOne_dry_vocab env i)⟩)

end Cleanup

/-- C1: for every metric window, the classifier's verdict equals the spec's
decision table: zero CPU samples yield `NoData`; a non-empty window with
avg CPU strictly below `CPU_THRESHOLD` and total network bytes strictly
below `NETWORK_THRESHOLD` yields `Idle`; otherwise the verdict is `Active`,
and a value exactly at its threshold yields `Active`. -/
theorem C1_classifier_decision_table (m : Detect.InstanceMetrics) :
    (m.cpuDatapoints = [] → Detect.classify m = Detect.Status.NoData) ∧
    (m.cpuDatapoints ≠ [] →
      ((Detect.classify m = Detect.Status.Idle ↔
          Detect.avg_cpu m < Detect.CPU_THRESHOLD ∧
            Detect.total_network m < Detect.NETWORK_THRESHOLD) ∧
        (Detect.classify m = Detect.Status.Active ↔
          ¬(Detect.avg_cpu m < Detect.CPU_THRESHOLD ∧
              Detect.total_network m < Detect.NETWORK_THRESHOLD)))) ∧
    (m.cpuDatapoints ≠ [] → Detect.avg_cpu m = Detect.CPU_THRESHOLD →
      Detect.classify m = Detect.Status.Active) ∧
    (m.cpuDatapoints ≠ [] → Detect.total_network m = Detect.NETWORK_THRESHOLD →
      Detect.classify m = Detect.Status.Active) := by
  have hcl : m.cpuDatapoints ≠ [] →
      Detect.classify m =
        if Detect.avg_cpu m < Detect.CPU_THRESHOLD ∧
            Detect.total_network m < Detect.NETWORK_THRESHOLD
        then Detect.Status.Idle else Detect.Status.Active := by
    intro h
    unfold Detect.classify
    simp [h]
  refine ⟨?_, ?_, ?_, ?_⟩
  · intro h
    unfold Detect.classify
    simp [h]
  · intro h
    rw [hcl h]
    by_cases hc : Detect.avg_cpu m < Detect.CPU_THRESHOLD ∧
        Detect.total_network m < Detect.NETWORK_THRESHOLD
    · simp [hc]
    · simp [hc]
  · intro h heq
    rw [hcl h, heq]
    simp
  · intro h heq
    rw [hcl h, heq]
    simp

/-- Witness for C1: the spec's scenario — one sample window with avg CPU
3.2 % and 500000 total network bytes is classified `Idle`. -/
theorem C1_witness :
    Detect.classify ⟨[⟨32/10, 5⟩], [250000], [250000]⟩ = Detect.Status.Idle :=
  ((C1_classifier_decision_table ⟨[⟨32/10, 5⟩], [250000], [250000]⟩).2.1
      (by decide)).1.mpr
    (by
      constructor <;>
        norm_num [Detect.avg_cpu, Detect.total_network, Detect.total_net_in,
          Detect.total_net_out, Detect.CPU_THRESHOLD, Detect.NETWORK_THRESHOLD])

/-- C4 counterexample: an instance whose metric query returns zero CPU
datapoints receives the `NoData` verdict, yet the scan cycle issues no
`put_item` for it — the `NoData` branch `continue`s before the DynamoDB
write, so no DetectionRecord is created or overwritten for that resource. -/
theorem C4_counterexample :
    (Detect.runScan [⟨"i-0abc", [], Except.ok ⟨[], [], []⟩⟩]).analyzed
        = [("i-0abc", Detect.Status.NoData)] ∧
    (Detect.runScan [⟨"i-0abc", [], Except.ok ⟨[], [], []⟩⟩]).puts = [] := by
  constructor <;> rfl

/-- C4 amended: for every resource that receives an `Idle` or `Active`
verdict in a scan cycle, one DetectionRecord upsert keyed by that resource
id is issued during that cycle; a `NoData` verdict is reported in the scan
summary but no record is written for it. -/
theorem C4_amended_upsert_per_verdict (acc : Detect.ScanSummary)
    (inst : Detect.Ec2Instance) (m : Detect.InstanceMetrics)
    (hskip : Detect.tagsGet inst.tags "AutoStop" ≠ some "false")
    (hm : inst.metrics = Except.ok m) :
    ((Detect.classify m = Detect.Status.Idle ∨
        Detect.classify m = Detect.Status.Active) →
      (Detect.scanStep acc inst).puts = acc.puts ++ [inst.id]) ∧
    (Detect.classify m = Detect.Status.NoData →
      (Detect.scanStep acc inst).puts = acc.puts) ∧
    (Detect.scanStep acc inst).analyzed
        = acc.analyzed ++ [(inst.id, Detect.classify m)] := by
  unfold Detect.scanStep
  rw [if_neg hskip]
  unfold Detect.scanClassify
  rw [hm]
  cases hc : Detect.classify m <;> simp [hc]

/-- Witness for C4's amended theorem: a one-sample busy window (avg CPU
50 %) leads to an `Active` verdict and a `put_item` for the instance. -/
theorem C4_amended_witness :
    (Detect.scanStep ⟨[], [], [], []⟩
        ⟨"i-0w", [], Except.ok ⟨[⟨50, 50⟩], [0], [0]⟩⟩).puts = ["i-0w"] := by
  have h := C4_amended_upsert_per_verdict ⟨[], [], [], []⟩
    ⟨"i-0w", [], Except.ok ⟨[⟨50, 50⟩], [0], [0]⟩⟩ ⟨[⟨50, 50⟩], [0], [0]⟩
    (by decide) rfl
  refine h.1 (Or.inr ?_)
  unfold Detect.classify
  norm_num [Detect.avg_cpu, Detect.total_network, Detect.total_net_in,
    Detect.total_net_out, Detect.CPU_THRESHOLD, Detect.NETWORK_THRESHOLD]

/-- C8: a resource tagged `AutoStop=false` is excluded from classification
entirely — removing it from the scanned list changes nothing in the scan
summary (no verdict, no list entry, no count, no write) — while a resource
with the `AutoStop` tag absent goes through classification unchanged. -/
theorem C8_autostop_optout (inst : Detect.Ec2Instance) :
    (Detect.tagsGet inst.tags "AutoStop" = some "false" →
      ∀ l1 l2 : List Detect.Ec2Instance,
        Detect.runScan (l1 ++ inst :: l2) = Detect.runScan (l1 ++ l2)) ∧
    (Detect.tagsGet inst.tags "AutoStop" = none →
      ∀ acc : Detect.ScanSummary,
        Detect.scanStep acc inst = Detect.scanClassify acc inst) := by
  constructor
  · intro h l1 l2
    unfold Detect.runScan
    rw [List.foldl_append, List.foldl_cons, List.foldl_append]
    congr 1
    unfold Detect.scanStep
    exact if_pos h
  · intro h acc
    unfold Detect.scanStep
    rw [if_neg]
    simp [h]

/-- Witness for C8: a scan over exactly one instance tagged
`AutoStop=false` produces the same (empty) summary as a scan over no
instances at all. -/
theorem C8_witness :
    Detect.runScan [⟨"i-opt", [("AutoStop", "false")], Except.ok ⟨[], [], []⟩⟩]
      = Detect.runScan [] :=
  (C8_autostop_optout ⟨"i-opt", [("AutoStop", "false")], Except.ok ⟨[], [], []⟩⟩).1
    (by decide) [] []

/-- C2: for every CleanupRequest with `dry_run=true`, no mutating provider
call is issued for any target, and every per-target result that is neither
a validator refusal nor an error is `dry_run_ok`. -/
theorem C2_dry_run_no_mutation (env : Cleanup.Env) (aok : Bool)
    (ev : Cleanup.CleanupEvent) (hdry : ev.dry_run = true) :
    Cleanup.handlerCalls (Cleanup.lambda_handler env aok ev).1 = [] ∧
    ∀ b, (Cleanup.lambda_handler env aok ev).1.details = some b →
      ∀ p ∈ b.results, p.2.isRefusal = false → p.2.isError = false →
        p.2 = Cleanup.Tag.dry_run_ok := by
  constructor
  · unfold Cleanup.handlerCalls
    cases hd : (Cleanup.lambda_handler env aok ev).1.details with
    | none => rfl
    | some b => exact (Cleanup.dispatch_dry env ev hdry b hd).1
  · intro b hb
    exact (Cleanup.dispatch_dry env ev hdry b hb).2

/-- Witness for C2: a dry-run stop request over the running instance
`i-run` issues no mutating call and tags the target `dry_run_ok`. -/
theorem C2_witness :
    Cleanup.handlerCalls
        (Cleanup.lambda_handler Cleanup.envA true Cleanup.evStopDry).1 = [] ∧
    ∀ b, (Cleanup.lambda_handler Cleanup.envA true Cleanup.evStopDry).1.details
        = some b →
      ∀ p ∈ b.results, p.2.isRefusal = false → p.2.isError = false →
        p.2 = Cleanup.Tag.dry_run_ok :=
  C2_dry_run_no_mutation Cleanup.envA true Cleanup.evStopDry rfl

/-- C3: every cleanup function returns exactly one result entry per target
id, each entry depending only on its own target — one target's failure
never aborts the remaining targets — and a target whose describe call
raises is tagged with its error message. -/
theorem C3_total_iteration (env : Cleanup.Env) (dry : Bool)
    (ids : List String) :
    ((Cleanup.stop_instances env ids dry).results
        = ids.map (fun i => (i, (Cleanup.stopOne env dry i).1))) ∧
    ((Cleanup.start_instances env ids dry).results
        = ids.map (fun i => (i, (Cleanup.startOne env dry i).1))) ∧
    ((Cleanup.terminate_instances env ids dry).results
        = ids.map (fun i => (i, (Cleanup.termOne env dry i).1))) ∧
    ((Cleanup.delete_volumes env ids dry).results
        = ids.map (fun i => (i, (Cleanup.volOne env dry i).1))) ∧
    ((Cleanup.release_eips env ids dry).results
        = ids.map (fun i => (i, (Cleanup.eipOne env dry i).1))) ∧
    ((Cleanup.delete_security_groups env ids dry).results
        = ids.map (fun i => (i, (Cleanup.sgOne env dry i).1))) ∧
    (∀ i e, env.instState i = Except.error e →
      (Cleanup.stopOne env dry i).1 = Cleanup.Tag.error e) ∧
    (∀ a e, env.addresses a = Except.error e →
      (Cleanup.eipOne env dry a).1 = Cleanup.Tag.error e) :=
  ⟨Cleanup.batchRun_results _ _ _, Cleanup.batchRun_results _ _ _,
   Cleanup.batchRun_results _ _ _, Cleanup.batchRun_results _ _ _,
   Cleanup.batchRun_results _ _ _, Cleanup.batchRun_results _ _ _,
   fun i e h => Cleanup.stopOne_err env dry i e h,
   fun a e h => Cleanup.eipOne_err env dry a e h⟩

/-- Witness for C3: a live stop request over a good and a bad id returns
one entry per target — `stop_requested` for the good one, `error:*` for the
bad one — and the failure does not abort the batch. -/
theorem C3_witness :
    (Cleanup.stop_instances Cleanup.envA ["i-run", "bad-id"] false).results
        = [("i-run", Cleanup.Tag.stop_requested),
           ("bad-id", Cleanup.Tag.error "InvalidInstanceID.NotFound")] ∧
    (Cleanup.stopOne Cleanup.envA false "bad-id").1
        = Cleanup.Tag.error "InvalidInstanceID.NotFound" := by
  have h := C3_total_iteration Cleanup.envA false ["i-run", "bad-id"]
  constructor
  · rw [h.1]
    rfl
  · exact h.2.2.2.2.2.2.1 "bad-id" "InvalidInstanceID.NotFound" rfl

/-- C5: security-group deletion tags a missing group `not_found`, a group
named `default` `default_group_skip` regardless of its usage, and a
non-default group referenced by a network interface `in_use` — none of
these issues a delete — and only a found, non-default, unreferenced group
reaches the dry-run short-circuit or the delete call. -/
theorem C5_sg_validation (env : Cleanup.Env) (dry : Bool) (g : String) :
    (env.secGroups g = Except.ok [] →
      Cleanup.sgOne env dry g = (Cleanup.Tag.not_found, [])) ∧
    (∀ grp rest, env.secGroups g = Except.ok (grp :: rest) →
      grp.groupName = "default" →
      Cleanup.sgOne env dry g = (Cleanup.Tag.default_group_skip, [])) ∧
    (∀ grp rest eni enis, env.secGroups g = Except.ok (grp :: rest) →
      grp.groupName ≠ "default" →
      env.netInterfaces g = Except.ok (eni :: enis) →
      Cleanup.sgOne env dry g = (Cleanup.Tag.in_use, [])) ∧
    ((Cleanup.sgOne env dry g).2 ≠ [] ∨
        (Cleanup.sgOne env dry g).1 = Cleanup.Tag.dry_run_ok ∨
        (Cleanup.sgOne env dry g).1 = Cleanup.Tag.deleted →
      ∃ grp rest, env.secGroups g = Except.ok (grp :: rest) ∧
        grp.groupName ≠ "default" ∧ env.netInterfaces g = Except.ok []) :=
  ⟨Cleanup.sgOne_not_found env dry g,
   fun grp rest h hn => Cleanup.sgOne_default env dry g grp rest h hn,
   fun grp rest eni enis h hn he =>
     Cleanup.sgOne_in_use env dry g grp rest h hn eni enis he,
   Cleanup.sgOne_proceed_inv env dry g⟩

/-- Witness for C5: the group named `default` is skipped with
`default_group_skip` even though a network interface references it, and no
delete call is issued. -/
theorem C5_witness :
    Cleanup.sgOne Cleanup.envA false "sg-default"
      = (Cleanup.Tag.default_group_skip, []) :=
  (C5_sg_validation Cleanup.envA false "sg-default").2.1
    ⟨"default"⟩ [] rfl rfl

/-- C6: a stop request against an already-stopped instance yields the
`already stopped` tag — not an error — and issues no mutating call, so a
repeat of the request (the provider state is unchanged, no mutation having
been issued, and the dry-run flag may even differ) again yields
`already stopped` with no mutation; symmetrically for start against an
already-running instance. -/
theorem C6_idempotent_stop_start (env : Cleanup.Env) (d d' : Bool)
    (i : String) :
    (env.instState i = Except.ok "stopped" →
      Cleanup.stopOne env d i = (Cleanup.Tag.already_stopped, []) ∧
      Cleanup.stopOne env d' i = (Cleanup.Tag.already_stopped, []) ∧
      (Cleanup.stopOne env d i).1.isError = false) ∧
    (env.instState i = Except.ok "running" →
      Cleanup.startOne env d i = (Cleanup.Tag.already_running, []) ∧
      Cleanup.startOne env d' i = (Cleanup.Tag.already_running, []) ∧
      (Cleanup.startOne env d i).1.isError = false) := by
  constructor
  · intro h
    refine ⟨Cleanup.stopOne_stopped env d i h, Cleanup.stopOne_stopped env d' i h, ?_⟩
    rw [Cleanup.stopOne_stopped env d i h]
    rfl
  · intro h
    refine ⟨Cleanup.startOne_running env d i h, Cleanup.startOne_running env d' i h, ?_⟩
    rw [Cleanup.startOne_running env d i h]
    rfl

/-- Witness for C6: stopping the already-stopped instance `i-stop` twice
(first live, then again) reports `already stopped` both times and never
issues a mutating call. -/
theorem C6_witness :
    Cleanup.stopOne Cleanup.envA false "i-stop"
        = (Cleanup.Tag.already_stopped, []) ∧
    Cleanup.stopOne Cleanup.envA false "i-stop"
        = (Cleanup.Tag.already_stopped, []) := by
  have h := (C6_idempotent_stop_start Cleanup.envA false false "i-stop").1 rfl
  exact ⟨h.1, h.2.1⟩

/-- C7: a cleanup request whose action kind is none of the six known kinds
returns an outcome whose `error` field identifies the unknown action, still
with transport-level `statusCode` 200 and no `details`; the handler is a
total function, so no exception crosses the boundary. -/
theorem C7_unknown_action (env : Cleanup.Env) (aok : Bool)
    (ev : Cleanup.CleanupEvent)
    (h1 : ev.action ≠ some "stop_instances")
    (h2 : ev.action ≠ some "start_instances")
    (h3 : ev.action ≠ some "terminate_instances")
    (h4 : ev.action ≠ some "delete_volumes")
    (h5 : ev.action ≠ some "release_eips")
    (h6 : ev.action ≠ some "delete_security_groups") :
    (Cleanup.lambda_handler env aok ev).1.statusCode = 200 ∧
    (Cleanup.lambda_handler env aok ev).1.error
        = some ("Unknown action: " ++ Cleanup.pyStr ev.action) ∧
    (Cleanup.lambda_handler env aok ev).1.details = none := by
  have hd : Cleanup.dispatch env ev
      = (none, some ("Unknown action: " ++ Cleanup.pyStr ev.action)) := by
    unfold Cleanup.dispatch
    rw [if_neg h1, if_neg h2, if_neg h3, if_neg h4, if_neg h5, if_neg h6]
  refine ⟨rfl, ?_, ?_⟩
  · show (Cleanup.dispatch env ev).2 = _
    rw [hd]
  · show (Cleanup.dispatch env ev).1 = none
    rw [hd]

/-- Witness for C7: the unknown action `reboot_instances` yields the
structured error `Unknown action: reboot_instances` with status 200. -/
theorem C7_witness :
    (Cleanup.lambda_handler Cleanup.envA true Cleanup.evUnknown).1.statusCode
        = 200 ∧
    (Cleanup.lambda_handler Cleanup.envA true Cleanup.evUnknown).1.error
        = some "Unknown action: reboot_instances" := by
  have h := C7_unknown_action Cleanup.envA true Cleanup.evUnknown
    (by decide) (by decide) (by decide) (by decide) (by decide) (by decide)
  exact ⟨h.1, h.2.1⟩

/-- C9: the outcome the cleanup handler returns to its caller is identical
whether the best-effort audit write succeeds or fails — a failed audit
append only loses the audit entry and never alters the remediation result
or rolls it back. -/
theorem C9_audit_best_effort (env : Cleanup.Env) (ev : Cleanup.CleanupEvent) :
    (Cleanup.lambda_handler env true ev).1
        = (Cleanup.lambda_handler env false ev).1 ∧
    (Cleanup.lambda_handler env false ev).2 = [] ∧
    (Cleanup.lambda_handler env true ev).2
        = [⟨ev.action, ev.dry_run, some "serialized result"⟩] :=
  ⟨rfl, rfl, rfl⟩

/-- C10: in every cleanup function the state validator runs before the
dry-run check: a target the validator refuses keeps its refusal tag even
when `dry_run=true`, and `dry_run_ok` is returned only for targets whose
validation passed. -/
theorem C10_validation_before_dry_run (env : Cleanup.Env)
    (i v a g : String) :
    (env.instState i = Except.ok "stopped" →
      Cleanup.stopOne env true i = (Cleanup.Tag.already_stopped, [])) ∧
    ((Cleanup.stopOne env true i).1 = Cleanup.Tag.dry_run_ok →
      ∃ st, env.instState i = Except.ok st ∧ st ≠ "stopped") ∧
    (env.instState i = Except.ok "running" →
      Cleanup.startOne env true i = (Cleanup.Tag.already_running, [])) ∧
    ((Cleanup.startOne env true i).1 = Cleanup.Tag.dry_run_ok →
      ∃ st, env.instState i = Except.ok st ∧ st ≠ "running") ∧
    (∀ st, env.volState v = Except.ok st → st ≠ "available" →
      Cleanup.volOne env true v = (Cleanup.Tag.not_available_state st, [])) ∧
    ((Cleanup.volOne env true v).1 = Cleanup.Tag.dry_run_ok →
      env.volState v = Except.ok "available") ∧
    (env.addresses a = Except.ok [] →
      Cleanup.eipOne env true a = (Cleanup.Tag.not_found, [])) ∧
    (∀ addr rest, env.addresses a = Except.ok (addr :: rest) →
      addr.associationId.isSome = true →
      Cleanup.eipOne env true a = (Cleanup.Tag.associated, [])) ∧
    ((Cleanup.eipOne env true a).1 = Cleanup.Tag.dry_run_ok →
      ∃ addr rest, env.addresses a = Except.ok (addr :: rest) ∧
        addr.associationId = none) ∧
    ((Cleanup.sgOne env true g).1 = Cleanup.Tag.dry_run_ok →
      ∃ grp rest, env.secGroups g = Except.ok (grp :: rest) ∧
        grp.groupName ≠ "default" ∧ env.netInterfaces g = Except.ok []) :=
  ⟨fun h => Cleanup.stopOne_stopped env true i h,
   Cleanup.stopOne_dry_ok_inv env i,
   fun h => Cleanup.startOne_running env true i h,
   Cleanup.startOne_dry_ok_inv env i,
   fun st h hn => Cleanup.volOne_not_available env true v st h hn,
   Cleanup.volOne_dry_ok_inv env v,
   fun h => Cleanup.eipOne_not_found env true a h,
   fun addr rest h ha => Cleanup.eipOne_associated env true a addr rest h ha,
   Cleanup.eipOne_dry_ok_inv env a,
   fun h => Cleanup.sgOne_proceed_inv env true g (Or.inr (Or.inl h))⟩

/-- Witness for C10: even under `dry_run=true`, the in-use volume `vol-1`
is refused with `not_available_state:in-use` — not `dry_run_ok` — and the
already-stopped instance `i-stop` is refused with `already stopped`. -/
theorem C10_witness :
    Cleanup.volOne Cleanup.envA true "vol-1"
        = (Cleanup.Tag.not_available_state "in-use", []) ∧
    Cleanup.stopOne Cleanup.envA true "i-stop"
        = (Cleanup.Tag.already_stopped, []) := by
  have h := C10_validation_before_dry_run Cleanup.envA "i-stop" "vol-1"
    "eip-missing" "sg-web"
  exact ⟨h.2.2.2.2.1 "in-use" rfl (by decide), h.1 rfl⟩

end CostOpt
